import Mathlib

/-!
Verification development for the order-placement controller
(src/controllers/orderController.js).

The controller is embedded shallowly: the inventory collection is an
association list from product identifier to stored quantity, the store
operations the code performs (findById, findByIdAndUpdate with an $inc
modifier, order save) are explicit Lean functions, and each request
handler becomes a pure function from store and request to a result, the
updated store, and the ordered trace of store operations it performed.
Quantities are Int because the controller applies unconditional signed
increments that can drive a stored quantity negative.
-/

/-- Inventory collection: product identifier mapped to its stored quantity. -/
abbrev Store := List (String × Int)

/-- A line item of a placement request: (productId, quantity), as destructured
on line 20 of the controller. The quantity is any number the client sent -
the controller never constrains its sign. -/
structure LineItem where
  productId : String
  quantity : Int
  deriving DecidableEq

/-- The body of a createOrder request: req.body.deliveryAddress and
req.body.products. Option none models an absent (or non-array, for
products) field; some "" models an empty, falsy, address string. -/
structure OrderReq where
  deliveryAddress : Option String
  products : Option (List LineItem)
  deriving DecidableEq

/-- The order document persisted by new Order(req.body).save(): the delivery
address and the line items exactly as given in the request body. -/
structure SavedOrder where
  deliveryAddress : String
  products : List LineItem
  deriving DecidableEq

/-- Outcome of createOrder, one constructor per response the handler sends:
the 400 shape-validation response (lines 9-15), the 400 insufficient-quantity
response carrying the collected errors array (lines 29-36), and the 201
success response carrying the saved order (lines 50-55). -/
inductive CreateOrderResult where
  | validationError
  | insufficient (errors : List String)
  | created (order : SavedOrder)
  deriving DecidableEq

/-- One atomic store operation performed by createOrder, in program order:
a Product.findById read, the newOrder.save() write of the order record, and
a Product.findByIdAndUpdate carrying an $inc of delta on the quantity. -/
inductive Event where
  | readProduct (pid : String)
  | saveOrder
  | incProduct (pid : String) (delta : Int)
  deriving DecidableEq

/-- Product.findById: the stored quantity of the product with the given
identifier, or none when no product resolves to it. -/
def productFindById (s : Store) (pid : String) : Option Int :=
  (s.find? (fun p => p.1 == pid)).map (fun p => p.2)

/-- Product.findByIdAndUpdate with an $inc modifier on quantity: adds delta
to the matching product's stored quantity; a miss is a no-op (no upsert). -/
def productInc (s : Store) (pid : String) (delta : Int) : Store :=
  s.map (fun p => if p.1 == pid then (p.1, p.2 + delta) else p)

/-- Shape validation, lines 9-15: reject when deliveryAddress is falsy
(absent or empty), products is not an array, or the array is empty.
Nothing about the quantities is checked. On success, the address and the
line-item list are handed to the rest of the handler. -/
def validateReq (r : OrderReq) : Option (String × List LineItem) :=
  match r.deliveryAddress, r.products with
  | some addr, some items =>
      if addr == "" || items.length == 0 then none else some (addr, items)
  | _, _ => none

/-- The per-item availability test of lines 21-24: the item cannot be
fulfilled when the product does not resolve or its stored quantity is
strictly below the requested quantity. Missing and understocked products
take the same branch and produce the same outcome. -/
def itemInsufficient (s : Store) (it : LineItem) : Bool :=
  match productFindById s it.productId with
  | none => true
  | some q => decide (q < it.quantity)

/-- The message pushed onto errorMessages for every failing item (line 23);
it names no product. -/
def insufficientMsg : String := "Not enough quantity available for a product"

/-- The errorMessages array after the productChecks of lines 19-27 have all
settled: one pushed copy of the fixed message per item that fails the
availability test. All items are examined; no check short-circuits. -/
def checkErrors (s : Store) (items : List LineItem) : List String :=
  items.foldl (fun acc it =>
    if itemInsufficient s it then acc ++ [insufficientMsg] else acc) []

/-- One productUpdates step (lines 42-45): an unconditional $inc of
-quantity on the item's product. No re-check of the stored quantity guards
the decrement. -/
def commitItem (s : Store) (it : LineItem) : Store :=
  productInc s it.productId (-it.quantity)

/-- All productUpdates of lines 41-48 applied. Each $inc is atomic at the
store and increments commute, so the awaited Promise.all is modelled as the
left fold of the single-item commits in list order. -/
def commitItems (s : Store) (items : List LineItem) : Store :=
  items.foldl commitItem s

/-- A complete run of createOrder: the HTTP-level result, the inventory
store as the handler leaves it, and the ordered trace of store operations
it performed. -/
structure CreateOrderRun where
  result : CreateOrderResult
  store : Store
  trace : List Event
  deriving DecidableEq

/-- The createOrder handler, lines 5-63: shape validation, the read-only
availability checks, the early 400 return when any errorMessages were
pushed, and otherwise newOrder.save() FOLLOWED BY the unconditional $inc
updates. The trace records the store operations in the order the code
awaits them: all findById reads, then the order save, then the $inc
updates. -/
def createOrder (s : Store) (r : OrderReq) : CreateOrderRun :=
  match validateReq r with
  | none => ⟨CreateOrderResult.validationError, s, []⟩
  | some (addr, items) =>
      let reads := items.map (fun it => Event.readProduct it.productId)
      let errs := checkErrors s items
      if errs.length > 0 then
        ⟨CreateOrderResult.insufficient errs, s, reads⟩
      else
        ⟨CreateOrderResult.created ⟨addr, items⟩, commitItems s items,
          reads ++ [Event.saveOrder]
                ++ items.map (fun it => Event.incProduct it.productId (-it.quantity))⟩

/-- One interleaving of two concurrent createOrder calls that the code
admits: each handler awaits its Product.findById reads before any update,
and no lock is held between a handler's availability check (lines 19-27)
and its $inc updates (lines 41-48), so both checks can read the initial
stock before either handler writes. Both placements run their checks
against s; the accepted ones then apply their commits in turn. -/
def runTwoPlacements (s : Store) (r1 r2 : OrderReq) :
    CreateOrderResult × CreateOrderResult × Store :=
  match validateReq r1, validateReq r2 with
  | none, none => (CreateOrderResult.validationError, CreateOrderResult.validationError, s)
  | none, some _ =>
      let run2 := createOrder s r2
      (CreateOrderResult.validationError, run2.result, run2.store)
  | some _, none =>
      let run1 := createOrder s r1
      (run1.result, CreateOrderResult.validationError, run1.store)
  | some (a1, items1), some (a2, items2) =>
      let errs1 := checkErrors s items1
      let errs2 := checkErrors s items2
      if errs1.length > 0 then
        if errs2.length > 0 then
          (CreateOrderResult.insufficient errs1, CreateOrderResult.insufficient errs2, s)
        else
          (CreateOrderResult.insufficient errs1,
            CreateOrderResult.created ⟨a2, items2⟩, commitItems s items2)
      else
        if errs2.length > 0 then
          (CreateOrderResult.created ⟨a1, items1⟩,
            CreateOrderResult.insufficient errs2, commitItems s items1)
        else
          (CreateOrderResult.created ⟨a1, items1⟩,
            CreateOrderResult.created ⟨a2, items2⟩,
            commitItems (commitItems s items1) items2)

/-- A persisted Order record as the update path sees it: its structured
delivery address (a field map) and its line items. -/
structure StoredOrder where
  deliveryAddress : List (String × String)
  products : List LineItem
  deriving DecidableEq

/-- The body of an updateOrder request: an optional deliveryAddress patch
and, because the whole req.body is forwarded to Order.findByIdAndUpdate,
an optional products field the caller may also send. -/
structure UpdateBody where
  deliveryAddress : Option (List (String × String))
  products : Option (List LineItem)
  deriving DecidableEq

/-- Outcome of updateOrder: the 400 invalid-identifier response, the 404
response, or the 200 response carrying the updated document. -/
inductive UpdateResult where
  | invalidId
  | notFound
  | updated (o : StoredOrder)
  deriving DecidableEq

/-- mongoose.Types.ObjectId.isValid, modelled for its 24-character
hexadecimal string form. -/
def isValidObjectId (id : String) : Bool :=
  id.length == 24 && id.toList.all (fun c =>
    c.isDigit || (97 ≤ c.toNat && c.toNat ≤ 102) || (65 ≤ c.toNat && c.toNat ≤ 70))

/-- Order.findById over the persisted order collection. -/
def ordersFindById (orders : List (String × StoredOrder)) (id : String) :
    Option StoredOrder :=
  (orders.find? (fun p => p.1 == id)).map (fun p => p.2)

/-- Replacement of one order document in the collection, as performed by
Order.findByIdAndUpdate. -/
def ordersReplace (orders : List (String × StoredOrder)) (id : String)
    (o : StoredOrder) : List (String × StoredOrder) :=
  orders.map (fun p => if p.1 == id then (p.1, o) else p)

/-- The object spread of lines 147-150: old address fields first, patch
fields second, the patch winning on a shared key. -/
def mergeFields (olds news : List (String × String)) : List (String × String) :=
  olds.filter (fun p => news.all (fun q => !(q.1 == p.1))) ++ news

/-- The updateOrder handler, lines 124-166: identifier validation, lookup,
the deliveryAddress merge when a patch is present, and then
Order.findByIdAndUpdate applied to the WHOLE request body - so a products
field in the body replaces the stored line items, while an absent field
leaves the stored value in place. -/
def updateOrder (orders : List (String × StoredOrder)) (id : String)
    (body : UpdateBody) : UpdateResult × List (String × StoredOrder) :=
  if isValidObjectId id then
    match ordersFindById orders id with
    | none => (UpdateResult.notFound, orders)
    | some o =>
        let newAddr :=
          match body.deliveryAddress with
          | some d => mergeFields o.deliveryAddress d
          | none => o.deliveryAddress
        let o2 : StoredOrder := ⟨newAddr, body.products.getD o.products⟩
        (UpdateResult.updated o2, ordersReplace orders id o2)
  else (UpdateResult.invalidId, orders)

/-- Spec scenario 1: stock A:5, one order for A:3 is accepted and leaves A at 2. -/
theorem spec_scenario_one :
    (createOrder [("A", 5)] ⟨some "x", some [⟨"A", 3⟩]⟩).store = [("A", 2)]
    ∧ (createOrder [("A", 5)] ⟨some "x", some [⟨"A", 3⟩]⟩).result
        = CreateOrderResult.created ⟨"x", [⟨"A", 3⟩]⟩ := by
  decide

/-- Spec scenario 2: stock A:2, an order for A:3 is rejected and A stays 2. -/
theorem spec_scenario_two :
    (createOrder [("A", 2)] ⟨some "x", some [⟨"A", 3⟩]⟩).result
      = CreateOrderResult.insufficient [insufficientMsg]
    ∧ (createOrder [("A", 2)] ⟨some "x", some [⟨"A", 3⟩]⟩).store = [("A", 2)] := by
  decide

/-- Spec scenario 3: stock A:5 B:1, an order for A:2 and B:2 is rejected
with B insufficient and both stocks unchanged. -/
theorem spec_scenario_three :
    (createOrder [("A", 5), ("B", 1)] ⟨some "x", some [⟨"A", 2⟩, ⟨"B", 2⟩]⟩).store
      = [("A", 5), ("B", 1)] := by
  decide

/-- C1: the code does NOT guarantee no overselling. With stock A:5 and two
concurrent placements each requesting 3 of A, the interleaving in which
both availability checks read the initial stock before either handler
updates - a schedule nothing in the code prevents - accepts BOTH orders:
6 units are reserved out of 5 and the stored quantity ends at -1, while
the claim requires the accepted quantities to sum to at most 5 and the
other placement to be rejected with a shortage. -/
theorem oversell_two_concurrent_placements :
    runTwoPlacements [("A", 5)] ⟨some "x", some [⟨"A", 3⟩]⟩ ⟨some "y", some [⟨"A", 3⟩]⟩
      = (CreateOrderResult.created ⟨"x", [⟨"A", 3⟩]⟩,
          CreateOrderResult.created ⟨"y", [⟨"A", 3⟩]⟩,
          [("A", -1)])
    ∧ ¬((3 : Int) + 3 ≤ 5) := by
  decide

/-- C2: the stored quantity does not stay non-negative. A single placement
whose line-item list names product A twice with quantity 3 each, against
stock A:5, passes the availability check (each check reads 5) and is
accepted, and the two unconditional decrements leave A at -1. -/
theorem duplicate_item_drives_quantity_negative :
    (createOrder [("A", 5)] ⟨some "x", some [⟨"A", 3⟩, ⟨"A", 3⟩]⟩).result
      = CreateOrderResult.created ⟨"x", [⟨"A", 3⟩, ⟨"A", 3⟩]⟩
    ∧ productFindById
        (createOrder [("A", 5)] ⟨some "x", some [⟨"A", 3⟩, ⟨"A", 3⟩]⟩).store "A"
        = some (-1)
    ∧ (-1 : Int) < 0 := by
  decide

/-- C3: the committed decrement is unconditional, not conditional. In the
accepted run of [B:3, B:3] against stock B:4, the second commit step runs
when B's current quantity is 1, which is below the requested 3; the claim
requires that item to fail with the quantity unchanged, but the code
decrements anyway and leaves B at -2. -/
theorem commit_decrements_despite_shortfall :
    productFindById (commitItem [("B", 4)] ⟨"B", 3⟩) "B" = some 1
    ∧ (1 : Int) < 3
    ∧ commitItem (commitItem [("B", 4)] ⟨"B", 3⟩) ⟨"B", 3⟩ = [("B", -2)]
    ∧ (createOrder [("B", 4)] ⟨some "x", some [⟨"B", 3⟩, ⟨"B", 3⟩]⟩).result
        = CreateOrderResult.created ⟨"x", [⟨"B", 3⟩, ⟨"B", 3⟩]⟩
    ∧ (createOrder [("B", 4)] ⟨some "x", some [⟨"B", 3⟩, ⟨"B", 3⟩]⟩).store
        = [("B", -2)] := by
  decide

/-- C4 counterexample: in the accepted placement of A:3 against stock A:5
the trace is read, save, decrement - the order save (index 1) precedes the
decrement (index 2), so it is false that the order-record write happens
only after every stock decrement has been applied. -/
theorem order_saved_before_decrements :
    (createOrder [("A", 5)] ⟨some "x", some [⟨"A", 3⟩]⟩).trace
      = [Event.readProduct "A", Event.saveOrder, Event.incProduct "A" (-3)]
    ∧ ¬(∀ k m : Nat,
          ((createOrder [("A", 5)] ⟨some "x", some [⟨"A", 3⟩]⟩).trace).get? k
            = some Event.saveOrder →
          (∃ pid d, ((createOrder [("A", 5)] ⟨some "x", some [⟨"A", 3⟩]⟩).trace).get? m
            = some (Event.incProduct pid d)) →
          m < k) :=
  ⟨by decide, fun h => absurd (h 1 2 (by decide) ⟨"A", -3, by decide⟩) (by decide)⟩

/-- C6: a non-positive requested quantity is NOT rejected by shape
validation. The request with address "x" and the single line item
(A, -2) against stock A:5 passes validation, the store is accessed
(the trace is non-empty), the order is accepted, and A's stored quantity
changes from 5 to 7 - the claim requires an immediate input-validation
rejection with no store access and no quantity change. -/
theorem nonpositive_quantity_passes_validation :
    validateReq ⟨some "x", some [⟨"A", -2⟩]⟩ = some ("x", [⟨"A", -2⟩])
    ∧ (createOrder [("A", 5)] ⟨some "x", some [⟨"A", -2⟩]⟩).result
        = CreateOrderResult.created ⟨"x", [⟨"A", -2⟩]⟩
    ∧ (createOrder [("A", 5)] ⟨some "x", some [⟨"A", -2⟩]⟩).trace ≠ []
    ∧ productFindById (createOrder [("A", 5)] ⟨some "x", some [⟨"A", -2⟩]⟩).store "A"
        = some 7 := by
  decide

/-- C7 counterexample: the shortage payload does not identify the failing
productId. The placements for one unit of the missing product "A" and for
one unit of the missing product "B" yield byte-identical payloads - a
single copy of the fixed message, which does not even contain the
character of either identifier - so the entries cannot identify which
product was insufficient. -/
theorem shortage_payload_lacks_product_id :
    (createOrder [] ⟨some "x", some [⟨"A", 1⟩]⟩).result
      = CreateOrderResult.insufficient [insufficientMsg]
    ∧ (createOrder [] ⟨some "x", some [⟨"B", 1⟩]⟩).result
        = CreateOrderResult.insufficient [insufficientMsg]
    ∧ insufficientMsg.toList.contains 'A' = false
    ∧ insufficientMsg.toList.contains 'B' = false
    ∧ "A" ≠ "B" := by
  decide

/-- C10: a negative quantity slips through both gates and restocks the
product. The placement with line item (A, -4) against stock A:10 passes
shape validation, passes the availability check (10 < -4 is false), is
accepted, and the $inc of -(-4) raises A's stored quantity to
10 + |-4| = 14. -/
theorem negative_quantity_accepted_and_stock_increases :
    validateReq ⟨some "x", some [⟨"A", -4⟩]⟩ = some ("x", [⟨"A", -4⟩])
    ∧ checkErrors [("A", 10)] [⟨"A", -4⟩] = []
    ∧ (createOrder [("A", 10)] ⟨some "x", some [⟨"A", -4⟩]⟩).result
        = CreateOrderResult.created ⟨"x", [⟨"A", -4⟩]⟩
    ∧ productFindById (createOrder [("A", 10)] ⟨some "x", some [⟨"A", -4⟩]⟩).store "A"
        = some (10 + (((-4 : Int).natAbs : Nat) : Int)) := by
  decide

/-- Key helper: the exact shape of an accepted createOrder run, extracted
from the created branch of the handler. -/
theorem createOrder_created_inv (s : Store) (r : OrderReq) (o : SavedOrder)
    (h : (createOrder s r).result = CreateOrderResult.created o) :
    ∃ addr items, validateReq r = some (addr, items)
      ∧ ¬(checkErrors s items).length > 0
      ∧ createOrder s r =
          ⟨CreateOrderResult.created ⟨addr, items⟩, commitItems s items,
            items.map (fun it => Event.readProduct it.productId)
              ++ [Event.saveOrder]
              ++ items.map (fun it => Event.incProduct it.productId (-it.quantity))⟩ := by
  rcases hv : validateReq r with _ | ⟨addr, items⟩
  · rw [createOrder, hv] at h
    cases h
  · by_cases he : (checkErrors s items).length > 0
    · rw [createOrder, hv] at h
      simp only [he, if_true] at h
      cases h
    · refine ⟨addr, items, rfl, he, ?_⟩
      rw [createOrder, hv]
      simp only [he, if_false]

/-- C5: when a placement is rejected for insufficient stock the handler
returns before newOrder.save() and before any productUpdates, so every
product's stored quantity is exactly what it was before the call. -/
theorem rejected_leaves_store_unchanged (s : Store) (r : OrderReq) (es : List String)
    (h : (createOrder s r).result = CreateOrderResult.insufficient es) :
    (createOrder s r).store = s := by
  rcases hv : validateReq r with _ | ⟨addr, items⟩
  · rw [createOrder, hv]
  · by_cases he : (checkErrors s items).length > 0
    · rw [createOrder, hv]
      simp only [he, if_true]
    · rw [createOrder, hv] at h
      simp only [he, if_false] at h
      cases h

/-- Witness for C5: the shortage rejection of A:3 against stock A:2
leaves the store exactly [("A", 2)]. -/
theorem rejected_leaves_store_unchanged_witness :
    (createOrder [("A", 2)] ⟨some "x", some [⟨"A", 3⟩]⟩).store = [("A", 2)] :=
  rejected_leaves_store_unchanged [("A", 2)] ⟨some "x", some [⟨"A", 3⟩]⟩
    [insufficientMsg] (by decide)

/-- C4 amended: in every accepted placement the order-record write sits
between the availability reads and the stock decrements - after every
findById read and BEFORE (not after) every $inc update. -/
theorem createOrder_saves_before_updates (s : Store) (r : OrderReq) (o : SavedOrder)
    (h : (createOrder s r).result = CreateOrderResult.created o) :
    ∃ pre post, (createOrder s r).trace = pre ++ Event.saveOrder :: post
      ∧ (∀ e ∈ pre, ∃ pid, e = Event.readProduct pid)
      ∧ (∀ e ∈ post, ∃ pid d, e = Event.incProduct pid d) := by
  obtain ⟨addr, items, hv, he, hrun⟩ := createOrder_created_inv s r o h
  refine ⟨items.map (fun it => Event.readProduct it.productId),
    items.map (fun it => Event.incProduct it.productId (-it.quantity)), ?_, ?_, ?_⟩
  · rw [hrun]
    simp [List.append_assoc]
  · intro e he'
    obtain ⟨it, _, rfl⟩ := List.mem_map.mp he'
    exact ⟨it.productId, rfl⟩
  · intro e he'
    obtain ⟨it, _, rfl⟩ := List.mem_map.mp he'
    exact ⟨it.productId, -it.quantity, rfl⟩

/-- Witness for the amended C4: the accepted placement of W:4 against
stock W:9 has its save event strictly between reads and decrements. -/
theorem createOrder_saves_before_updates_witness :
    ∃ pre post,
      (createOrder [("W", 9)] ⟨some "w", some [⟨"W", 4⟩]⟩).trace
        = pre ++ Event.saveOrder :: post
      ∧ (∀ e ∈ pre, ∃ pid, e = Event.readProduct pid)
      ∧ (∀ e ∈ post, ∃ pid d, e = Event.incProduct pid d) :=
  createOrder_saves_before_updates [("W", 9)] ⟨some "w", some [⟨"W", 4⟩]⟩
    ⟨"w", [⟨"W", 4⟩]⟩ (by decide)

/-- Helper for C7: the fold building errorMessages grows the accumulator
by exactly one pushed message per insufficient item. -/
theorem checkErrors_go_length (s : Store) (items : List LineItem) :
    ∀ acc : List String,
      (items.foldl (fun acc it =>
          if itemInsufficient s it then acc ++ [insufficientMsg] else acc) acc).length
        = acc.length + items.countP (fun it => itemInsufficient s it) := by
  induction items with
  | nil => intro acc; simp
  | cons it tl ih =>
      intro acc
      by_cases hit : itemInsufficient s it
      · simp only [List.foldl_cons, hit, if_true, ih, List.countP_cons, List.length_append]
        simp [hit]
        omega
      · simp only [List.foldl_cons, hit, if_false, ih, List.countP_cons]
        simp [hit]

/-- Helper for C7: every string the fold ever holds is either from the
initial accumulator or the one fixed message. -/
theorem checkErrors_go_mem (s : Store) (items : List LineItem) :
    ∀ (acc : List String) (e : String),
      e ∈ items.foldl (fun acc it =>
          if itemInsufficient s it then acc ++ [insufficientMsg] else acc) acc →
      e ∈ acc ∨ e = insufficientMsg := by
  induction items with
  | nil => intro acc e he; exact Or.inl he
  | cons it tl ih =>
      intro acc e he
      by_cases hit : itemInsufficient s it
      · rw [List.foldl_cons, if_pos hit] at he
        rcases ih (acc ++ [insufficientMsg]) e he with h | h
        · rcases List.mem_append.mp h with h2 | h2
          · exact Or.inl h2
          · exact Or.inr (List.mem_singleton.mp h2)
        · exact Or.inr h
      · rw [List.foldl_cons, if_neg hit] at he
        exact ih acc e he

/-- C7 amended: shortage detection is aggregated, never short-circuited -
errorMessages holds exactly one entry per insufficient line item - but
every entry is the one fixed message, which carries no productId. -/
theorem shortage_errors_aggregated (s : Store) (items : List LineItem) :
    (checkErrors s items).length = items.countP (fun it => itemInsufficient s it)
    ∧ ∀ e ∈ checkErrors s items, e = insufficientMsg := by
  constructor
  · simpa using checkErrors_go_length s items []
  · intro e he
    rcases checkErrors_go_mem s items [] e he with h | h
    · exact absurd h (List.not_mem_nil e)
    · exact h

/-- Witness for the amended C7: against the store holding only A:0, the
request [A:2, B:1] (A understocked, B missing) produces exactly two
entries, both the fixed message. -/
theorem shortage_errors_aggregated_witness :
    ((checkErrors [("A", 0)] [⟨"A", 2⟩, ⟨"B", 1⟩]).length
        = ([⟨"A", 2⟩, ⟨"B", 1⟩] : List LineItem).countP
            (fun it => itemInsufficient [("A", 0)] it)
      ∧ ∀ e ∈ checkErrors [("A", 0)] [⟨"A", 2⟩, ⟨"B", 1⟩], e = insufficientMsg)
    ∧ (checkErrors [("A", 0)] [⟨"A", 2⟩, ⟨"B", 1⟩]).length = 2 :=
  ⟨shortage_errors_aggregated [("A", 0)] [⟨"A", 2⟩, ⟨"B", 1⟩], by decide⟩

/-- C8: a productId that resolves to no stored product takes the same
branch, with the same Boolean outcome, as an understocked product: both
are classified insufficient by the availability test, and the function
returns rather than throwing or using a distinct error class. -/
theorem missing_product_treated_as_insufficient (s : Store) (it : LineItem) :
    (productFindById s it.productId = none → itemInsufficient s it = true)
    ∧ (∀ q : Int, productFindById s it.productId = some q → q < it.quantity →
        itemInsufficient s it = true) := by
  constructor
  · intro h
    rw [itemInsufficient, h]
  · intro q h hq
    rw [itemInsufficient, h]
    simpa using hq

/-- Witness for C8: against the store holding only B:5, the missing
product A is insufficient; against B:1, the understocked request B:2 is
insufficient - the same outcome. -/
theorem missing_product_treated_as_insufficient_witness :
    itemInsufficient [("B", 5)] ⟨"A", 1⟩ = true
    ∧ itemInsufficient [("B", 1)] ⟨"B", 2⟩ = true :=
  ⟨(missing_product_treated_as_insufficient [("B", 5)] ⟨"A", 1⟩).1 (by decide),
    (missing_product_treated_as_insufficient [("B", 1)] ⟨"B", 2⟩).2 1 (by decide) (by decide)⟩

/-- A well-formed 24-character hexadecimal order identifier used by the
concrete update runs. -/
def sampleOid : String := "aaaaaaaaaaaaaaaaaaaaaaaa"

/-- C9 counterexample: line items are NOT immutable under updateOrder.
Because the whole request body is forwarded to Order.findByIdAndUpdate,
an update body carrying a products field replaces the stored line items:
the order holding [A:3] ends holding [A:100] after an address-free update
whose body sets products. -/
theorem update_body_products_mutates_line_items :
    (updateOrder [(sampleOid, ⟨[("city", "x")], [⟨"A", 3⟩]⟩)] sampleOid
        ⟨none, some [⟨"A", 100⟩]⟩).1
      = UpdateResult.updated ⟨[("city", "x")], [⟨"A", 100⟩]⟩
    ∧ (updateOrder [(sampleOid, ⟨[("city", "x")], [⟨"A", 3⟩]⟩)] sampleOid
        ⟨none, some [⟨"A", 100⟩]⟩).2
      = [(sampleOid, ⟨[("city", "x")], [⟨"A", 100⟩]⟩)]
    ∧ ([⟨"A", 100⟩] : List LineItem) ≠ [⟨"A", 3⟩] := by
  decide

/-- C9 amended: when the update body carries no products field, the
update touches only the delivery address and the updated order's line
items equal the stored order's line items. -/
theorem update_without_products_preserves_line_items
    (orders : List (String × StoredOrder)) (id : String) (body : UpdateBody)
    (o2 : StoredOrder) (orders2 : List (String × StoredOrder))
    (hp : body.products = none)
    (h : updateOrder orders id body = (UpdateResult.updated o2, orders2)) :
    ∃ o, ordersFindById orders id = some o ∧ o2.products = o.products := by
  rw [updateOrder] at h
  by_cases hid : isValidObjectId id
  · rw [if_pos hid] at h
    rcases ho : ordersFindById orders id with _ | o
    · rw [ho] at h
      cases h
    · rw [ho] at h
      refine ⟨o, rfl, ?_⟩
      have h1 : UpdateResult.updated
          (⟨match body.deliveryAddress with
            | some d => mergeFields o.deliveryAddress d
            | none => o.deliveryAddress, body.products.getD o.products⟩ : StoredOrder)
          = UpdateResult.updated o2 := congrArg Prod.fst h
      have h2 := (UpdateResult.updated.injEq _ _).mp h1
      rw [← h2, hp]
      rfl
  · rw [if_neg hid] at h
    cases h

/-- Witness for the amended C9: an address-only update of the order
holding [A:3] leaves its line items [A:3]. -/
theorem update_without_products_preserves_line_items_witness :
    ∃ o, ordersFindById [(sampleOid, ⟨[("city", "x")], [⟨"A", 3⟩]⟩)] sampleOid = some o
      ∧ (⟨[("city", "x"), ("zip", "9")], [⟨"A", 3⟩]⟩ : StoredOrder).products = o.products :=
  update_without_products_preserves_line_items
    [(sampleOid, ⟨[("city", "x")], [⟨"A", 3⟩]⟩)] sampleOid ⟨some [("zip", "9")], none⟩
    ⟨[("city", "x"), ("zip", "9")], [⟨"A", 3⟩]⟩
    [(sampleOid, ⟨[("city", "x"), ("zip", "9")], [⟨"A", 3⟩]⟩)]
    rfl (by decide)
